import Mathlib

/-!
Verification development for a lecture video question-answering application.

The repository is a Next.js/TypeScript frontend (upload widget, processing
status poller, video player, chat interface) over a pipeline/retrieval backend.
Frontend components under `src/frontend` and the page in `src/unnamed/part_000`
are embedded directly from the TypeScript source.  The backend core (Pipeline
Orchestrator, Indexer, Retriever, Answer Composer) is not part of the source
tree here, so those operations are modelled from the specification, as marked
on each definition.

Numbers that are JavaScript `number`s (times, progress percentages, scores)
are modelled as rationals `ℚ`.
-/

/-- The processing state of a recording, embedded from the union type
`VideoStatus.status` in `src/frontend/types/video.ts`
(`'uploaded' | 'extracting_audio' | 'transcribing' | 'processing_rag' |
'completed' | 'failed'`).  In the specification these states are named
UPLOADED, EXTRACTING_AUDIO, TRANSCRIBING, INDEXING, READY, FAILED. -/
inductive Status where
  | uploaded
  | extracting_audio
  | transcribing
  | processing_rag
  | completed
  | failed
deriving DecidableEq, Repr, Fintype

/-- Embedded from `ProcessingStatus.tsx` (Step 1, line 140): the Audio
Extraction step is highlighted iff the status is in
`['extracting_audio', 'transcribing', 'processing_rag', 'completed']`. -/
def stepAudioExtractionDone (s : Status) : Bool :=
  s = .extracting_audio ∨ s = .transcribing ∨ s = .processing_rag ∨ s = .completed

/-- Embedded from `ProcessingStatus.tsx` (Step 2, line 154): the Transcription
step is highlighted iff the status is in
`['transcribing', 'processing_rag', 'completed']`. -/
def stepTranscriptionDone (s : Status) : Bool :=
  s = .transcribing ∨ s = .processing_rag ∨ s = .completed

/-- Embedded from `ProcessingStatus.tsx` (Step 3, line 168): the RAG
Processing step is highlighted iff the status is in
`['processing_rag', 'completed']`. -/
def stepRagDone (s : Status) : Bool :=
  s = .processing_rag ∨ s = .completed

/-- Embedded from `ProcessingStatus.tsx` (Step 4, line 182): Ready to Chat is
highlighted iff the status is `'completed'`. -/
def stepReadyDone (s : Status) : Bool :=
  s = .completed

/-- Number of highlighted processing steps in `ProcessingStatus.tsx`; this is
the position of a status along the pipeline's linear order as the UI encodes
it (uploaded 0, extracting_audio 1, transcribing 2, processing_rag 3,
completed 4; failed highlights no step). -/
def completedStepCount (s : Status) : Nat :=
  (stepAudioExtractionDone s).toNat + (stepTranscriptionDone s).toNat
    + (stepRagDone s).toNat + (stepReadyDone s).toNat

/-- Embedded from `getStatusText` in `ProcessingStatus.tsx` (lines 74-91). -/
def getStatusText (s : Status) : String :=
  match s with
  | .uploaded => "Video uploaded successfully"
  | .extracting_audio => "Extracting audio from video"
  | .transcribing => "Generating transcript with AI"
  | .processing_rag => "Processing content for search"
  | .completed => "Processing completed! You can now chat with your lecture."
  | .failed => "Processing failed. Please try uploading again."

/-- Modelled from the spec (§4.1): READY (`completed`) and FAILED (`failed`)
are the terminal states of the pipeline.  The polling loop in
`ProcessingStatus.tsx` (line 31) stops exactly on these two states. -/
def isTerminal (s : Status) : Bool :=
  s = .completed ∨ s = .failed

/-- Modelled from the spec (§4.1): the successor of each state along the
strictly linear order UPLOADED → EXTRACTING_AUDIO → TRANSCRIBING → INDEXING
(`processing_rag`) → READY (`completed`); terminal states have none. -/
def nextState (s : Status) : Option Status :=
  match s with
  | .uploaded => some .extracting_audio
  | .extracting_audio => some .transcribing
  | .transcribing => some .processing_rag
  | .processing_rag => some .completed
  | .completed => none
  | .failed => none

/-- Modelled from the spec (§4.1): the Orchestrator accepts a transition from
`s` to `t` iff `t` is the linear successor of `s`, or `t` is FAILED and `s`
is not terminal ("Any state may transition directly to FAILED; FAILED and
READY are terminal — no further transitions accepted from either"). -/
def canTransition (s t : Status) : Bool :=
  nextState s = some t ∨ (t = .failed ∧ ¬ isTerminal s)

/-- Modelled from the spec (§5): the client-visible forward order on states,
used to state that no state ever moves backward; FAILED, being reachable from
every non-terminal state and terminal, sits above all of them. -/
def specStateIndex (s : Status) : Nat :=
  match s with
  | .uploaded => 0
  | .extracting_audio => 1
  | .transcribing => 2
  | .processing_rag => 3
  | .completed => 4
  | .failed => 5

/-- A citation entry, embedded from the element type of
`ChatResponse.timestamps` in `src/frontend/types/video.ts`
(`{start: number, end: number, relevance: number}`). -/
structure Citation where
  start : ℚ
  «end» : ℚ
  relevance : ℚ
deriving DecidableEq, Repr

/-- Embedded from `ChatResponse` in `src/frontend/types/video.ts`. -/
structure ChatResponse where
  response : String
  timestamps : List Citation
  confidence : ℚ
deriving DecidableEq, Repr

/-- Modelled from the spec (§3 Chunk): a retrieval-granularity unit with a
time span, whitespace-normalized text and an embedding vector. -/
structure Chunk where
  start : ℚ
  «end» : ℚ
  text : String
  embedding : List ℚ
deriving DecidableEq, Repr

/-- Modelled from the spec (§3 Recording): one uploaded media item, with the
queryable chunk index the pipeline built for it attached. -/
structure Recording where
  state : Status
  progress : ℚ
  message : String
  failure_reason : Option String
  duration_seconds : ℚ
  chunks : List Chunk
deriving DecidableEq, Repr

/-- Modelled from the spec (§4.1): one call to the Orchestrator's
`advance(recording_id)`.  On a terminal state (READY or FAILED) it performs no
work and returns the recording unchanged.  Otherwise it performs the one step
of work for the current state — the external outcome of that step is the
parameter `stepOutcome` — and either moves to the linear successor state,
resetting progress to 0 and emitting that state's fixed message, or on a step
failure records the failure reason and moves to FAILED. -/
def advance (stepOutcome : Status → Except String Unit) (r : Recording) : Recording :=
  if isTerminal r.state then r
  else
    match stepOutcome r.state with
    | .error reason =>
        { r with state := .failed, progress := 0,
                 message := getStatusText .failed, failure_reason := some reason }
    | .ok _ =>
        match nextState r.state with
        | some t => { r with state := t, progress := 0, message := getStatusText t }
        | none => r

/-- Modelled from the spec (§4.1, §5): one observable update to a recording's
client-visible (state, progress) pair.  Within a state the Orchestrator only
raises progress, keeping it at most 100; a state transition follows
`canTransition` and resets progress to 0. -/
inductive OrchStep : Status × ℚ → Status × ℚ → Prop where
  | progressUpdate (s : Status) (p q : ℚ) (hterm : isTerminal s = false)
      (hmono : p ≤ q) (hub : q ≤ 100) : OrchStep (s, p) (s, q)
  | stateTransition (s t : Status) (p : ℚ) (h : canTransition s t = true) :
      OrchStep (s, p) (t, 0)

/-- Modelled from the spec (§4.3): the Retriever ranks scored chunks by
descending similarity score, ties broken by earlier chunk start time.  `rank
a b` says `a` may come no later than `b` in the output. -/
def rank (a b : Chunk × ℚ) : Prop :=
  b.2 < a.2 ∨ (a.2 = b.2 ∧ a.1.start ≤ b.1.start)

instance (a b : Chunk × ℚ) : Decidable (rank a b) :=
  inferInstanceAs (Decidable (_ ∨ _))

/-- Insert a scored chunk into a list already ordered by `rank`. -/
def insertRanked (a : Chunk × ℚ) : List (Chunk × ℚ) → List (Chunk × ℚ)
  | [] => [a]
  | b :: l => if rank a b then a :: b :: l else b :: insertRanked a l

/-- Insertion sort by `rank`: descending score, ties by earlier start time. -/
def sortRanked : List (Chunk × ℚ) → List (Chunk × ℚ)
  | [] => []
  | a :: l => insertRanked a (sortRanked l)

/-- Modelled from the spec (§4.3): `search` scores every chunk of the
recording with the similarity function applied to its embedding (the query
has already been embedded; cosine similarity against the query embedding is
the function `sim`), and returns the top `k` by score, ties broken by earlier
start time.  When `k` exceeds the number of chunks all chunks are returned. -/
def search (chunks : List Chunk) (sim : List ℚ → ℚ) (k : Nat) : List (Chunk × ℚ) :=
  (sortRanked (chunks.map fun c => (c, sim c.embedding))).take k

/-- Modelled from the spec (§4.3, §4.4): the default number of retrieved
chunks / returned citations ("k defaults to a small constant"; "e.g., top
3"). -/
def defaultK : Nat := 3

/-- Modelled from the spec (§4.4 edge case): the defined low threshold that
the confidence of the fixed no-grounding answer stays below. -/
def lowConfidenceThreshold : ℚ := 1/10

/-- Modelled from the spec (§4.4 step 2): the grounding prompt built from the
retrieved chunk texts, each tagged with its time range, and the question. -/
def buildPrompt (question : String) (retrieved : List (Chunk × ℚ)) : String :=
  String.intercalate "\n"
    (retrieved.map fun p =>
      "[" ++ toString p.1.start ++ " - " ++ toString p.1.«end» ++ "] " ++ p.1.text)
    ++ "\nQuestion: " ++ question

/-- Modelled from the spec (§4.4): the Answer Composer.  With zero retrieved
chunks it returns the fixed low-confidence "not found in this recording"
answer with no citations, without calling the generation function.
Otherwise the answer text comes from the external generation function
`generate` applied to the grounding prompt, the citations are the retrieved
chunks' time ranges with relevance = score (already in descending-relevance
order from the Retriever), and the confidence is the top retrieval score. -/
def composeAnswer (generate : String → String) (question : String)
    (retrieved : List (Chunk × ℚ)) : ChatResponse :=
  match retrieved with
  | [] => { response := "not found in this recording", timestamps := [], confidence := 0 }
  | top :: rest =>
      { response := generate (buildPrompt question (top :: rest)),
        timestamps := (top :: rest).map fun p =>
          { start := p.1.start, «end» := p.1.«end», relevance := p.2 },
        confidence := top.2 }

/-- Modelled from the spec (§7): errors `ask` can signal — NotReadyError when
the recording is not in READY state, ServiceUnavailable when the external
generation call fails. -/
inductive AskError where
  | notReady
  | serviceUnavailable
deriving DecidableEq, Repr

/-- Modelled from the spec (§6, §4.3, §4.4): `ask(recording_id, question)` is
valid only once the recording's state is READY (`completed`) and returns a
NotReady error otherwise; on a READY recording it runs the Retriever over the
recording's chunks (with the query embedded by the external embedding
function, folded into `sim`) and hands the result to the Answer Composer. -/
def ask (r : Recording) (sim : String → List ℚ → ℚ) (generate : String → String)
    (question : String) : Except AskError ChatResponse :=
  if r.state = Status.completed then
    Except.ok (composeAnswer generate question (search r.chunks (sim question) defaultK))
  else
    Except.error AskError.notReady

/-- One chat message, embedded from `ChatMessage` in
`src/frontend/types/video.ts` (the `timestamp: Date` field is modelled as the
string the component computes it from). -/
structure ChatMessage where
  id : String
  message : String
  response : Option String
  timestamps : Option (List Citation)
  confidence : Option ℚ
  timestamp : String
  isUser : Bool
deriving DecidableEq, Repr

/-- The chat component's state, embedded from the `useState` hooks of
`ChatInterface` in `src/unnamed/part_000` (lines 14-17): `messages`, `input`,
`isLoading`, `error`. -/
structure ChatState where
  messages : List ChatMessage
  input : String
  isLoading : Bool
  error : Option String
deriving DecidableEq, Repr

/-- Embedded from the `disabled` attribute of the send button in
`ChatInterface` (line 222): `!input.trim() || isLoading`. -/
def sendDisabled (st : ChatState) : Bool :=
  st.input.trim = "" ∨ st.isLoading

/-- Embedded from `handleSendMessage` in `ChatInterface`
(`src/unnamed/part_000` lines 28-42): if the trimmed input is empty or a send
is already loading, return immediately.  Otherwise append the optimistic user
message, clear the input, set `isLoading`, clear the error, and issue the API
call with the input text.  The returned `Option String` is the body of the
`sendChatMessage` API call, `none` when no call is issued; `now` stands for
`Date.now().toString()`. -/
def handleSendMessage (st : ChatState) (now : String) : ChatState × Option String :=
  if st.input.trim = "" ∨ st.isLoading then (st, none)
  else
    ({ messages := st.messages ++
        [{ id := now, message := st.input, response := none, timestamps := none,
           confidence := none, timestamp := now, isUser := true }],
       input := "", isLoading := true, error := none },
     some st.input)

/-- Embedded from `handleSkipBack` in `VideoPlayer.tsx` (lines 67-72): seek to
`Math.max(0, currentTime - 10)`. -/
def handleSkipBack (currentTime : ℚ) : ℚ :=
  max 0 (currentTime - 10)

/-- Embedded from `handleSkipForward` in `VideoPlayer.tsx` (lines 74-79): seek
to `Math.min(duration, currentTime + 10)`. -/
def handleSkipForward (duration currentTime : ℚ) : ℚ :=
  min duration (currentTime + 10)

/-- The accepted video file extensions, embedded from the `accept` map
`\x7b 'video/*': ['.mp4', '.avi', '.mov', '.mkv', '.webm'] \x7d` of
`useDropzone` in `VideoUpload.tsx` (line 28). -/
def videoExtensions : List String :=
  [".mp4", ".avi", ".mov", ".mkv", ".webm"]

/-- The maximum accepted file size in bytes, embedded from
`maxSize: 2 * 1024 * 1024 * 1024` in `VideoUpload.tsx` (line 31). -/
def maxFileSize : Nat := 2 * 1024 * 1024 * 1024

/-- A file offered to the dropzone: name, size in bytes, MIME type. -/
structure FileInfo where
  name : String
  size : Nat
  mimeType : String
deriving DecidableEq, Repr

/-- Character-list rendering of JavaScript `String.prototype.startsWith`. -/
def strStartsWith (s pre : String) : Bool :=
  pre.data.isPrefixOf s.data

/-- Character-list rendering of JavaScript `String.prototype.endsWith`. -/
def strEndsWith (s suf : String) : Bool :=
  suf.data.isSuffixOf s.data

/-- Character-list rendering of JavaScript `String.prototype.toLowerCase`
(ASCII range, which covers MIME types and the extensions involved here). -/
def strToLower (s : String) : String :=
  ⟨s.data.map Char.toLower⟩

/-- The base MIME type: the lowercased MIME string with everything from the
first `/` removed (the library computes `mimeType.replace` with the pattern
`/\/.*$/`), e.g. `video/x-ms-wmv` ↦ `video`. -/
def baseMime (mime : String) : String :=
  ⟨(strToLower mime).data.takeWhile fun c => c ≠ '/'⟩

/-- The dropzone `accept` map `\x7b 'video/*': ['.mp4', '.avi', '.mov',
'.mkv', '.webm'] \x7d` of `VideoUpload.tsx` (line 28), flattened the way
react-dropzone turns it into an HTML `accept` attribute: the MIME key
followed by the extension list. -/
def acceptEntries : List String :=
  "video/*" :: videoExtensions

/-- One accept-entry check as react-dropzone's matcher (the attr-accept
package) performs it: an entry starting with `.` matches when the lowercased
file name ends with it; an entry ending in `/*` matches when the file's base
MIME type equals the part before `/*`; any other entry must equal the
lowercased MIME type exactly.  The entries in `acceptEntries` are literal,
already trimmed and lowercase, so the matcher's trimming/lowercasing of the
entry itself is the identity and is omitted. -/
def acceptEntryMatches (fileName mime entry : String) : Bool :=
  if strStartsWith entry "." then
    strEndsWith (strToLower fileName) entry
  else if strEndsWith entry "/*" then
    baseMime mime = ⟨entry.data.take (entry.data.length - 2)⟩
  else
    strToLower mime = entry

/-- A file matches the dropzone's `accept` declaration when SOME flattened
accept entry matches it (react-dropzone/attr-accept use a disjunctive
`.some(...)` over the entries, the HTML `accept` attribute semantics): its
MIME type is `video/*` OR its name ends with one of the listed extensions
(`VideoUpload.tsx` lines 27-29). -/
def fileTypeAccepted (f : FileInfo) : Bool :=
  acceptEntries.any fun entry => acceptEntryMatches f.name f.mimeType entry

/-- Embedded from `useDropzone` in `VideoUpload.tsx` (lines 25-42): validate
an offered file against the `accept` map and `maxSize`; `none` means the file
is accepted, otherwise the result is the error message `onDropRejected` shows
for the rejection's first error code (`file-invalid-type` →
"Invalid file type...", `file-too-large` → "File is too large..."). -/
def checkFile (f : FileInfo) : Option String :=
  if ¬ fileTypeAccepted f then some "Invalid file type. Please upload a video file."
  else if maxFileSize < f.size then some "File is too large. Maximum size is 2GB."
  else none

/-- The upload component's state, embedded from the `useState` hooks of
`VideoUpload.tsx` (lines 13-16): `uploading`, `uploadProgress`, `error`,
`selectedFile`. -/
structure UploadState where
  uploading : Bool
  uploadProgress : ℚ
  error : Option String
  selectedFile : Option FileInfo
deriving DecidableEq, Repr

/-- Embedded from `VideoUpload.tsx`: the outcome of offering the file `f` to
the dropzone.  An accepted file becomes the selected file and clears the
error (`onDrop`, lines 18-23); a rejected file only sets the error message
(`onDropRejected`, lines 32-41). -/
def dropFile (st : UploadState) (f : FileInfo) : UploadState :=
  match checkFile f with
  | none => { st with selectedFile := some f, error := none }
  | some msg => { st with error := some msg }

/-- Embedded from `handleUpload` in `VideoUpload.tsx` (lines 44-62): with no
selected file it returns immediately; otherwise it marks the upload started
and issues the `uploadVideo` API call with the selected file.  The returned
`Option FileInfo` is the file handed to `uploadVideo`, `none` when no upload
is started. -/
def handleUpload (st : UploadState) : UploadState × Option FileInfo :=
  match st.selectedFile with
  | none => (st, none)
  | some f =>
      ({ st with uploading := true, error := none, uploadProgress := 0 }, some f)

/-- A sample chunk used to instantiate theorems at concrete inputs. -/
def sampleChunk : Chunk :=
  { start := 0, «end» := 5, text := "hello world", embedding := [1, 0] }

/-- A second sample chunk, same retrieval score profile, later start time. -/
def sampleChunkLater : Chunk :=
  { start := 7, «end» := 9, text := "more words", embedding := [1, 0] }

/-- A sample READY recording holding one indexed chunk. -/
def sampleReadyRecording : Recording :=
  { state := Status.completed, progress := 100, message := "done", failure_reason := none,
    duration_seconds := 10, chunks := [sampleChunk] }

/-- A sample READY recording with no indexed chunks. -/
def sampleEmptyRecording : Recording :=
  { state := Status.completed, progress := 100, message := "done", failure_reason := none,
    duration_seconds := 10, chunks := [] }

/-- A sample FAILED recording. -/
def sampleFailedRecording : Recording :=
  { state := Status.failed, progress := 0, message := "failed", failure_reason := some "whisper error",
    duration_seconds := 0, chunks := [] }

/-- A constant similarity function for concrete instantiations. -/
def constSim : String → List ℚ → ℚ := fun _ _ => 1

/-- A constant generation function for concrete instantiations. -/
def constGenerate : String → String := fun _ => "a grounded answer"

/-- The upload component's initial state: nothing selected, no error. -/
def sampleUploadState : UploadState :=
  { uploading := false, uploadProgress := 0, error := none, selectedFile := none }

/-- A video file one byte over the 2 GiB limit. -/
def sampleOversizedFile : FileInfo :=
  { name := "lecture.mp4", size := 2 * 1024 * 1024 * 1024 + 1, mimeType := "video/mp4" }

/-- A Windows Media video file: its MIME type matches the `video/*` wildcard
but its extension is not in the dropzone's extension list. -/
def sampleWmvFile : FileInfo :=
  { name := "lecture.wmv", size := 1000, mimeType := "video/x-ms-wmv" }

/-- A chat state with a send in flight. -/
def sampleLoadingChatState : ChatState :=
  { messages := [], input := "what is RAG", isLoading := true, error := none }

/-! ## Helper lemmas -/

theorem rank_total (a b : Chunk × ℚ) : rank a b ∨ rank b a := by
  rcases lt_trichotomy a.2 b.2 with h | h | h
  · exact Or.inr (Or.inl h)
  · rcases le_total a.1.start b.1.start with hs | hs
    · exact Or.inl (Or.inr ⟨h, hs⟩)
    · exact Or.inr (Or.inr ⟨h.symm, hs⟩)
  · exact Or.inl (Or.inl h)

theorem rank_trans (a b c : Chunk × ℚ) (hab : rank a b) (hbc : rank b c) : rank a c := by
  rcases hab with hab | ⟨hab, sab⟩
  · rcases hbc with hbc | ⟨hbc, _⟩
    · exact Or.inl (hbc.trans hab)
    · exact Or.inl (hbc ▸ hab)
  · rcases hbc with hbc | ⟨hbc, sbc⟩
    · exact Or.inl (hab ▸ hbc)
    · exact Or.inr ⟨hab.trans hbc, sab.trans sbc⟩

theorem mem_insertRanked {x a : Chunk × ℚ} {l : List (Chunk × ℚ)}
    (h : x ∈ insertRanked a l) : x = a ∨ x ∈ l := by
  induction l with
  | nil =>
      simp only [insertRanked, List.mem_singleton] at h
      exact Or.inl h
  | cons b l ih =>
      by_cases hr : rank a b
      · simp only [insertRanked, if_pos hr, List.mem_cons] at h
        simpa [List.mem_cons] using h
      · simp only [insertRanked, if_neg hr, List.mem_cons] at h
        rcases h with h | h
        · exact Or.inr (by simp [h])
        · rcases ih h with h | h
          · exact Or.inl h
          · exact Or.inr (by simp [h])

theorem mem_sortRanked {x : Chunk × ℚ} {l : List (Chunk × ℚ)}
    (h : x ∈ sortRanked l) : x ∈ l := by
  induction l with
  | nil => simp [sortRanked] at h
  | cons a l ih =>
      rcases mem_insertRanked (l := sortRanked l) (by simpa [sortRanked] using h) with h' | h'
      · simp [h']
      · simp [ih h']

theorem pairwise_insertRanked (a : Chunk × ℚ) (l : List (Chunk × ℚ))
    (h : l.Pairwise rank) : (insertRanked a l).Pairwise rank := by
  induction l with
  | nil => simp [insertRanked]
  | cons b l ih =>
      rcases List.pairwise_cons.mp h with ⟨hb, hl⟩
      by_cases hr : rank a b
      · simp only [insertRanked, if_pos hr]
        refine List.pairwise_cons.mpr ⟨?_, h⟩
        intro x hx
        rcases List.mem_cons.mp hx with hx | hx
        · exact hx ▸ hr
        · exact rank_trans a b x hr (hb x hx)
      · simp only [insertRanked, if_neg hr]
        refine List.pairwise_cons.mpr ⟨?_, ih hl⟩
        intro x hx
        rcases mem_insertRanked hx with hx | hx
        · exact hx ▸ (rank_total a b).resolve_left hr
        · exact hb x hx

theorem pairwise_sortRanked (l : List (Chunk × ℚ)) : (sortRanked l).Pairwise rank := by
  induction l with
  | nil => simp [sortRanked]
  | cons a l ih => exact pairwise_insertRanked a (sortRanked l) ih

theorem pairwise_search (chunks : List Chunk) (sim : List ℚ → ℚ) (k : Nat) :
    (search chunks sim k).Pairwise rank :=
  (pairwise_sortRanked (chunks.map fun c => (c, sim c.embedding))).sublist
    (List.take_sublist k _)

theorem mem_search {p : Chunk × ℚ} {chunks : List Chunk} {sim : List ℚ → ℚ} {k : Nat}
    (h : p ∈ search chunks sim k) : p.1 ∈ chunks := by
  have h1 : p ∈ sortRanked (chunks.map fun c => (c, sim c.embedding)) :=
    List.take_subset _ _ h
  rcases List.mem_map.mp (mem_sortRanked h1) with ⟨c, hc, hp⟩
  cases hp
  exact hc

theorem reach_progress_bounds (a : Status × ℚ)
    (h : Relation.ReflTransGen OrchStep (Status.uploaded, 0) a) :
    0 ≤ a.2 ∧ a.2 ≤ 100 := by
  induction h with
  | refl => norm_num
  | tail hab hbc ih =>
      cases hbc with
      | progressUpdate s p q hterm hmono hub => exact ⟨le_trans ih.1 hmono, hub⟩
      | stateTransition s t p hc => exact ⟨le_refl 0, by norm_num⟩

theorem canTransition_index_lt :
    ∀ s t : Status, canTransition s t = true → specStateIndex s < specStateIndex t := by
  decide

theorem canTransition_ne : ∀ s t : Status, canTransition s t = true → s ≠ t := by
  decide

/-! ## Claim theorems -/

/-- C1: for every recording, the state field only ever advances along the
linear order UPLOADED → EXTRACTING_AUDIO → TRANSCRIBING → INDEXING → READY
(each accepted non-failure transition moves to the immediately next step of
the UI's step order, so no state is skipped), the sole extra transition being
any state → FAILED; and from READY (`completed`) or FAILED no transition is
accepted at all. -/
theorem c1_pipeline_states_linear_and_terminal :
    (∀ s t : Status, canTransition s t = true →
        ¬ (s = Status.completed ∨ s = Status.failed) ∧
        (t = Status.failed ∨ completedStepCount t = completedStepCount s + 1)) ∧
    (∀ t : Status,
        canTransition Status.completed t = false ∧ canTransition Status.failed t = false) := by
  decide

/-- Witness for C1 at the concrete transition UPLOADED → EXTRACTING_AUDIO. -/
theorem c1_pipeline_states_linear_and_terminal_witness :
    canTransition Status.uploaded Status.extracting_audio = true ∧
    (¬ (Status.uploaded = Status.completed ∨ Status.uploaded = Status.failed) ∧
      (Status.extracting_audio = Status.failed ∨
        completedStepCount Status.extracting_audio = completedStepCount Status.uploaded + 1)) :=
  ⟨by decide,
   c1_pipeline_states_linear_and_terminal.1 Status.uploaded Status.extracting_audio (by decide)⟩

/-- C2: for every recording whose state is not READY (`completed`) — a FAILED
recording included — `ask` returns the NotReady error and never an answer. -/
theorem c2_ask_not_ready (r : Recording) (sim : String → List ℚ → ℚ)
    (generate : String → String) (question : String)
    (h : r.state ≠ Status.completed) :
    ask r sim generate question = Except.error AskError.notReady ∧
    ∀ resp : ChatResponse, ask r sim generate question ≠ Except.ok resp := by
  refine ⟨by simp [ask, h], ?_⟩
  intro resp hresp
  rw [show ask r sim generate question = Except.error AskError.notReady
    from by simp [ask, h]] at hresp
  exact Except.noConfusion hresp

/-- Witness for C2 at a concrete FAILED recording. -/
theorem c2_ask_not_ready_witness :
    sampleFailedRecording.state ≠ Status.completed ∧
    ask sampleFailedRecording constSim constGenerate "what is covered?"
      = Except.error AskError.notReady :=
  ⟨by decide,
   (c2_ask_not_ready sampleFailedRecording constSim constGenerate "what is covered?"
      (by decide)).1⟩

/-- C4: for a recording already in READY (`completed`), calling the
Orchestrator's `advance` does nothing — and hence two calls in immediate
succession perform no additional work and leave state and progress
unchanged. -/
theorem c4_advance_idempotent_on_ready (stepOutcome : Status → Except String Unit)
    (r : Recording) (h : r.state = Status.completed) :
    advance stepOutcome r = r ∧
    advance stepOutcome (advance stepOutcome r) = advance stepOutcome r ∧
    (advance stepOutcome (advance stepOutcome r)).state = r.state ∧
    (advance stepOutcome (advance stepOutcome r)).progress = r.progress := by
  have hterm : isTerminal r.state = true := by
    simp [isTerminal, h]
  have h1 : advance stepOutcome r = r := by
    simp [advance, hterm]
  refine ⟨h1, ?_, ?_, ?_⟩ <;> rw [h1, h1]

/-- Witness for C4 at a concrete READY recording. -/
theorem c4_advance_idempotent_on_ready_witness :
    sampleReadyRecording.state = Status.completed ∧
    advance (fun _ => Except.ok ()) sampleReadyRecording = sampleReadyRecording ∧
    advance (fun _ => Except.ok ()) (advance (fun _ => Except.ok ()) sampleReadyRecording)
      = advance (fun _ => Except.ok ()) sampleReadyRecording :=
  ⟨by decide,
   (c4_advance_idempotent_on_ready (fun _ => Except.ok ()) sampleReadyRecording (by decide)).1,
   (c4_advance_idempotent_on_ready (fun _ => Except.ok ()) sampleReadyRecording (by decide)).2.1⟩

/-- C9: in the video player, with current playback time `t` within a video of
duration `d` (`0 ≤ t ≤ d`), skip-back seeks to `max 0 (t - 10)`, skip-forward
seeks to `min d (t + 10)`, and both seek targets lie in `[0, d]`. -/
theorem c9_skip_targets_in_bounds (t d : ℚ) (ht : 0 ≤ t) (htd : t ≤ d) :
    handleSkipBack t = max 0 (t - 10) ∧
    handleSkipForward d t = min d (t + 10) ∧
    (0 ≤ handleSkipBack t ∧ handleSkipBack t ≤ d) ∧
    (0 ≤ handleSkipForward d t ∧ handleSkipForward d t ≤ d) := by
  have hd : (0:ℚ) ≤ d := ht.trans htd
  refine ⟨rfl, rfl, ⟨le_max_left 0 _, ?_⟩, ⟨?_, min_le_left d _⟩⟩
  · exact max_le hd ((sub_le_self t (by norm_num)).trans htd)
  · exact le_min hd (by linarith)

/-- Witness for C9 at t = 15, d = 60. -/
theorem c9_skip_targets_in_bounds_witness :
    (0 ≤ (15:ℚ) ∧ (15:ℚ) ≤ 60) ∧
    (handleSkipBack 15 = max 0 (15 - 10) ∧
      handleSkipForward 60 15 = min 60 (15 + 10) ∧
      (0 ≤ handleSkipBack 15 ∧ handleSkipBack 15 ≤ 60) ∧
      (0 ≤ handleSkipForward 60 15 ∧ handleSkipForward 60 15 ≤ 60)) :=
  ⟨⟨by decide, by decide⟩, c9_skip_targets_in_bounds 15 60 (by decide) (by decide)⟩

/-- C8: in the chat interface, whenever the input text trims to empty
(empty or whitespace-only) or a previous send is still in flight
(`isLoading`), the send button is disabled and invoking send is a no-op: no
API call is issued and the component state — message list, input text,
loading flag and error — is unchanged. -/
theorem c8_send_noop_when_blank_or_loading (st : ChatState) (now : String)
    (h : st.input.trim = "" ∨ st.isLoading = true) :
    sendDisabled st = true ∧ handleSendMessage st now = (st, none) := by
  constructor
  · simp only [sendDisabled, decide_eq_true_eq]
    exact h
  · simp only [handleSendMessage, if_pos h]

/-- Witness for C8 at a concrete state with a send already in flight. -/
theorem c8_send_noop_when_blank_or_loading_witness :
    (sampleLoadingChatState.input.trim = "" ∨ sampleLoadingChatState.isLoading = true) ∧
    (sendDisabled sampleLoadingChatState = true ∧
      handleSendMessage sampleLoadingChatState "17" = (sampleLoadingChatState, none)) :=
  ⟨Or.inr rfl,
   c8_send_noop_when_blank_or_loading sampleLoadingChatState "17" (Or.inr rfl)⟩

/-- C10 counterexample: the dropzone matches the flattened accept entries
disjunctively, so a `lecture.wmv` file with MIME type `video/x-ms-wmv` is
accepted through the `video/*` wildcard and becomes the selected file, even
though its extension is in no listed extension — refuting the claim that a
file is accepted only if it bears one of the extensions
.mp4/.avi/.mov/.mkv/.webm. -/
theorem c10_accept_disjunctive_counterexample :
    fileTypeAccepted sampleWmvFile = true ∧
    checkFile sampleWmvFile = none ∧
    (videoExtensions.any fun ext => strEndsWith sampleWmvFile.name ext) = false ∧
    (dropFile sampleUploadState sampleWmvFile).selectedFile = some sampleWmvFile ∧
    (handleUpload (dropFile sampleUploadState sampleWmvFile)).2 = some sampleWmvFile := by
  decide

/-- C10 (amended): a file offered to the upload form is accepted exactly when
it matches the dropzone accept declaration — its MIME type matches `video/*`
or its lowercased name ends with one of .mp4/.avi/.mov/.mkv/.webm — and its
size is at most 2 GiB; an oversized accept-matching file yields the error
"File is too large. Maximum size is 2GB.", a file matching no accept entry
yields "Invalid file type. Please upload a video file.", and in either
rejection case no file becomes selected and no upload is started. -/
theorem c10_upload_validation_amended (st : UploadState) (f : FileInfo)
    (hsel : st.selectedFile = none) :
    (checkFile f = none ↔ fileTypeAccepted f = true ∧ f.size ≤ maxFileSize) ∧
    (fileTypeAccepted f = false →
      (dropFile st f).error = some "Invalid file type. Please upload a video file.") ∧
    (fileTypeAccepted f = true → maxFileSize < f.size →
      (dropFile st f).error = some "File is too large. Maximum size is 2GB.") ∧
    (checkFile f ≠ none →
      (dropFile st f).selectedFile = none ∧ (handleUpload (dropFile st f)).2 = none) := by
  by_cases hft : fileTypeAccepted f = true
  · by_cases hsize : f.size ≤ maxFileSize
    · refine ⟨⟨fun _ => ⟨hft, hsize⟩, fun _ => ?_⟩, ?_, ?_, ?_⟩
      · simp [checkFile, hft, not_lt.mpr hsize]
      · intro hcontra; rw [hft] at hcontra; exact absurd hcontra (by simp)
      · intro _ hlt; exact absurd hsize (not_le.mpr hlt)
      · intro hne
        exact absurd (by simp [checkFile, hft, not_lt.mpr hsize]) hne
    · have hchk : checkFile f = some "File is too large. Maximum size is 2GB." := by
        simp [checkFile, hft, not_le.mp hsize]
      refine ⟨⟨fun hc => ?_, fun ⟨_, hle⟩ => absurd hle hsize⟩, ?_, ?_, ?_⟩
      · rw [hchk] at hc; exact Option.noConfusion hc
      · intro hcontra; rw [hft] at hcontra; exact absurd hcontra (by simp)
      · intro _ _; simp [dropFile, hchk]
      · intro _
        constructor
        · simp [dropFile, hchk, hsel]
        · simp [handleUpload, dropFile, hchk, hsel]
  · have hft' : fileTypeAccepted f = false := by
      cases hb : fileTypeAccepted f
      · rfl
      · exact absurd hb hft
    have hchk : checkFile f = some "Invalid file type. Please upload a video file." := by
      simp [checkFile, hft']
    refine ⟨⟨fun hc => ?_, fun ⟨hacc, _⟩ => absurd hacc hft⟩, ?_, ?_, ?_⟩
    · rw [hchk] at hc; exact Option.noConfusion hc
    · intro _; simp [dropFile, hchk]
    · intro hacc; exact absurd hacc hft
    · intro _
      constructor
      · simp [dropFile, hchk, hsel]
      · simp [handleUpload, dropFile, hchk, hsel]

/-- Witness for the amended C10 at a concrete oversized .mp4 video file. -/
theorem c10_upload_validation_amended_witness :
    sampleUploadState.selectedFile = none ∧
    fileTypeAccepted sampleOversizedFile = true ∧
    maxFileSize < sampleOversizedFile.size ∧
    (dropFile sampleUploadState sampleOversizedFile).error
      = some "File is too large. Maximum size is 2GB." ∧
    (handleUpload (dropFile sampleUploadState sampleOversizedFile)).2 = none :=
  ⟨rfl, by decide, by decide,
   (c10_upload_validation_amended sampleUploadState sampleOversizedFile rfl).2.2.1
     (by decide) (by decide),
   ((c10_upload_validation_amended sampleUploadState sampleOversizedFile rfl).2.2.2
     (by decide)).2⟩

/-- C5: whenever the Retriever returns zero chunks for a query on a READY
recording, `ask` returns the fixed "not found in this recording" answer with
an empty citation list and a confidence (0) below the defined low threshold,
and its result does not depend on the external generation function — the
generation function is never consulted. -/
theorem c5_empty_retrieval_fixed_answer (r : Recording) (sim : String → List ℚ → ℚ)
    (g g' : String → String) (question : String)
    (hready : r.state = Status.completed)
    (hempty : search r.chunks (sim question) defaultK = []) :
    ask r sim g question = Except.ok
      { response := "not found in this recording", timestamps := [], confidence := 0 } ∧
    (0 : ℚ) < lowConfidenceThreshold ∧
    ask r sim g question = ask r sim g' question := by
  have h1 : ∀ gen : String → String, ask r sim gen question = Except.ok
      { response := "not found in this recording", timestamps := [], confidence := 0 } := by
    intro gen
    simp [ask, hready, hempty, composeAnswer]
  refine ⟨h1 g, by norm_num [lowConfidenceThreshold], (h1 g).trans (h1 g').symm⟩

/-- Witness for C5 at a concrete READY recording with no indexed chunks. -/
theorem c5_empty_retrieval_fixed_answer_witness :
    sampleEmptyRecording.state = Status.completed ∧
    search sampleEmptyRecording.chunks (constSim "anything") defaultK = [] ∧
    ask sampleEmptyRecording constSim constGenerate "anything" = Except.ok
      { response := "not found in this recording", timestamps := [], confidence := 0 } :=
  ⟨by decide, rfl,
   (c5_empty_retrieval_fixed_answer sampleEmptyRecording constSim constGenerate
      (fun _ => "other") "anything" (by decide) rfl).1⟩

/-- C6: every citation returned by `ask` on a READY recording whose indexed
chunks lie within the recording (each chunk has `0 ≤ start < end ≤
duration_seconds`, the Indexer invariant) satisfies `0 ≤ start`,
`end ≤ duration_seconds` and `start < end`. -/
theorem c6_citations_within_duration (r : Recording) (sim : String → List ℚ → ℚ)
    (generate : String → String) (question : String) (resp : ChatResponse)
    (hwf : ∀ c ∈ r.chunks, 0 ≤ c.start ∧ c.start < c.«end» ∧ c.«end» ≤ r.duration_seconds)
    (hask : ask r sim generate question = Except.ok resp) :
    ∀ ts ∈ resp.timestamps,
      0 ≤ ts.start ∧ ts.start < ts.«end» ∧ ts.«end» ≤ r.duration_seconds := by
  by_cases hs : r.state = Status.completed
  · simp only [ask, if_pos hs, Except.ok.injEq] at hask
    subst hask
    intro ts hts
    have hmem : ∃ p ∈ search r.chunks (sim question) defaultK,
        ts = { start := p.1.start, «end» := p.1.«end», relevance := p.2 } := by
      rcases hsearch : search r.chunks (sim question) defaultK with _ | ⟨top, rest⟩
      · rw [hsearch] at hts
        simp [composeAnswer] at hts
      · rw [hsearch] at hts
        simp only [composeAnswer, List.mem_map] at hts
        rcases hts with ⟨p, hp, hpts⟩
        exact ⟨p, hp, hpts.symm⟩
    rcases hmem with ⟨p, hp, rfl⟩
    have hc := hwf p.1 (mem_search hp)
    exact ⟨hc.1, hc.2.1, hc.2.2⟩
  · rw [show ask r sim generate question = Except.error AskError.notReady
      from by simp [ask, hs]] at hask
    exact Except.noConfusion hask

/-- Witness for C6 at a concrete READY recording with one in-range chunk. -/
theorem c6_citations_within_duration_witness :
    (∀ c ∈ sampleReadyRecording.chunks,
      0 ≤ c.start ∧ c.start < c.«end» ∧ c.«end» ≤ sampleReadyRecording.duration_seconds) ∧
    ask sampleReadyRecording constSim constGenerate "q" = Except.ok
      { response := "a grounded answer",
        timestamps := [{ start := 0, «end» := 5, relevance := 1 }], confidence := 1 } ∧
    (∀ ts ∈ ({ response := "a grounded answer",
               timestamps := [{ start := 0, «end» := 5, relevance := 1 }],
               confidence := 1 } : ChatResponse).timestamps,
      0 ≤ ts.start ∧ ts.start < ts.«end» ∧ ts.«end» ≤ sampleReadyRecording.duration_seconds) :=
  ⟨by decide, rfl,
   c6_citations_within_duration sampleReadyRecording constSim constGenerate "q" _
     (by decide) rfl⟩

/-- C7: retrieval is deterministic — two `search` calls with identical chunk
lists and identical query text return the identical ordered result list — and
the returned list is ordered by descending similarity score with ties broken
by earlier chunk start time (`rank`). -/
theorem c7_search_deterministic_tiebreak (cs cs' : List Chunk)
    (simOf : String → List ℚ → ℚ) (q q' : String) (k : Nat)
    (hcs : cs = cs') (hq : q = q') :
    search cs (simOf q) k = search cs' (simOf q') k ∧
    List.Pairwise rank (search cs (simOf q) k) := by
  subst hcs
  subst hq
  exact ⟨rfl, pairwise_search cs (simOf q) k⟩

/-- Witness for C7 at two concrete equal-score chunks: the tie is broken in
favour of the chunk with the earlier start time even though it is listed
second. -/
theorem c7_search_deterministic_tiebreak_witness :
    ([sampleChunkLater, sampleChunk] = [sampleChunkLater, sampleChunk]) ∧
    ("a question" = "a question") ∧
    search [sampleChunkLater, sampleChunk] (constSim "a question") 3
      = [(sampleChunk, 1), (sampleChunkLater, 1)] ∧
    (search [sampleChunkLater, sampleChunk] (constSim "a question") 3
        = search [sampleChunkLater, sampleChunk] (constSim "a question") 3 ∧
      List.Pairwise rank (search [sampleChunkLater, sampleChunk] (constSim "a question") 3)) :=
  ⟨rfl, rfl, by decide,
   c7_search_deterministic_tiebreak [sampleChunkLater, sampleChunk]
     [sampleChunkLater, sampleChunk] constSim "a question" "a question" 3 rfl rfl⟩

/-- C3 counterexample: the claim's last conjunct — successive progress values
observed by a poller never decrease — fails on the modelled Orchestrator: a
recording reaches (UPLOADED, progress 50), and the accepted transition to
EXTRACTING_AUDIO resets progress to 0, so a poller observes 50 followed by 0,
and ¬ (50 ≤ 0). -/
theorem c3_poller_decrease_counterexample :
    Relation.ReflTransGen OrchStep (Status.uploaded, (0:ℚ)) (Status.uploaded, 50) ∧
    OrchStep (Status.uploaded, (50:ℚ)) (Status.extracting_audio, 0) ∧
    ¬ ((50:ℚ) ≤ 0) :=
  ⟨Relation.ReflTransGen.single
     (OrchStep.progressUpdate Status.uploaded 0 50 (by decide) (by decide) (by decide)),
   OrchStep.stateTransition Status.uploaded Status.extracting_audio 50 (by decide),
   by decide⟩

/-- C3 (amended): for every recording, progress stays within 0–100, is
monotonically non-decreasing within a single state, and is reset to 0 on
every state transition; across a transition the observed progress may drop
to 0 while the state advances, so what a poller observes is non-decreasing
in the lexicographic order on (state position, progress), not in the raw
progress value. -/
theorem c3_progress_monotone_amended (a b : Status × ℚ)
    (hreach : Relation.ReflTransGen OrchStep (Status.uploaded, 0) a)
    (hstep : OrchStep a b) :
    (0 ≤ b.2 ∧ b.2 ≤ 100) ∧
    (a.1 = b.1 → a.2 ≤ b.2) ∧
    (a.1 ≠ b.1 → b.2 = 0 ∧ canTransition a.1 b.1 = true) ∧
    (specStateIndex a.1 < specStateIndex b.1 ∨ (a.1 = b.1 ∧ a.2 ≤ b.2)) := by
  have hbounds := reach_progress_bounds a hreach
  cases hstep with
  | progressUpdate s p q hterm hmono hub =>
      exact ⟨⟨hbounds.1.trans hmono, hub⟩, fun _ => hmono,
        fun hne => absurd rfl hne, Or.inr ⟨rfl, hmono⟩⟩
  | stateTransition s t p hc =>
      refine ⟨⟨le_refl 0, by norm_num⟩, ?_, fun _ => ⟨rfl, hc⟩,
        Or.inl (canTransition_index_lt s t hc)⟩
      intro heq
      exact absurd heq (canTransition_ne s t hc)

/-- Witness for the amended C3 at a concrete within-state progress update
0 → 30 in state UPLOADED. -/
theorem c3_progress_monotone_amended_witness :
    Relation.ReflTransGen OrchStep (Status.uploaded, (0:ℚ)) (Status.uploaded, 0) ∧
    OrchStep (Status.uploaded, (0:ℚ)) (Status.uploaded, 30) ∧
    (((0:ℚ) ≤ 30 ∧ (30:ℚ) ≤ 100) ∧
      (Status.uploaded = Status.uploaded → (0:ℚ) ≤ 30) ∧
      (Status.uploaded ≠ Status.uploaded →
        (30:ℚ) = 0 ∧ canTransition Status.uploaded Status.uploaded = true) ∧
      (specStateIndex Status.uploaded < specStateIndex Status.uploaded ∨
        (Status.uploaded = Status.uploaded ∧ (0:ℚ) ≤ 30))) :=
  ⟨Relation.ReflTransGen.refl,
   OrchStep.progressUpdate Status.uploaded 0 30 (by decide) (by decide) (by decide),
   c3_progress_monotone_amended (Status.uploaded, 0) (Status.uploaded, 30)
     Relation.ReflTransGen.refl
     (OrchStep.progressUpdate Status.uploaded 0 30 (by decide) (by decide) (by decide))⟩
